import Mathlib

/-!
# hysteria, cmd/server.go

A shallow embedding of `server`, `tcpRequestFunc`, `tcpErrorFunc` and
`actionToString` from `cmd/server.go`, and the properties of the start-up
sequence, of the authentication strategies and of the event reporter.

Go strings and byte slices are lists of bytes.  A run of `server` is the list
of the calls it makes to its collaborators (the logger, the TLS, JSON5 and ACL
loaders, the transport engine) together with the way control leaves it.  The
answers of the collaborators are the fields of a `World`.
-/

namespace Hysteria

/-! ## Values -/

/-- A Go string: an immutable sequence of bytes, compared byte by byte. -/
abbrev GoString := List UInt8

/-- The bytes of a Go string literal (Go source text is UTF-8). -/
def lit (s : String) : GoString := s.toUTF8.data.toList

/-- A non-nil Go error value: the sentinel io.EOF, or any other error, named by its
text.  Errors are compared by identity, so an error whose text reads EOF is still
not io.EOF. -/
inductive GoError where
  | EOF
  | other (text : GoString)
deriving DecidableEq

/-- The Go conversion int64(x) of an integer: reduction into the signed 64-bit range. -/
def int64 (x : Int) : Int := (x + 2 ^ 63) % 2 ^ 64 - 2 ^ 63

/-- The Go conversion uint64(x) of an integer: reduction modulo 2^64. -/
def uint64 (x : Int) : Nat := (x % 2 ^ 64).toNat

/-- A net.Addr, by the results of its two methods. -/
structure Addr where
  Network : GoString
  String : GoString
deriving DecidableEq

/-- Modelled from the spec: the type acl.Action is declared in pkg/acl, which is not
among the sources at hand.  The spec names four action kinds (pass-through, proxy,
block, hijack-with-argument) and speaks of any unrecognized action value, so an
action is a numeric code of which four are named. -/
abbrev Action := Nat

/-- Modelled from the spec: the pass-through action. -/
def ActionDirect : Action := 0

/-- Modelled from the spec: the proxy action. -/
def ActionProxy : Action := 1

/-- Modelled from the spec: the block action. -/
def ActionBlock : Action := 2

/-- Modelled from the spec: the hijack action, which comes with an argument. -/
def ActionHijack : Action := 3

/-- Modelled from the spec: acl.Engine is declared in pkg/acl.  The spec gives it one
attribute, the default action; the rules are carried along untouched. -/
structure Engine where
  DefaultAction : Action
  Entries : List GoString
deriving DecidableEq

/-! ## The logger -/

/-- The logrus severities used in this file. -/
inductive Level where
  | Debug
  | Info
  | Warn
  | Fatal
deriving DecidableEq

/-- The value of a log field: a string, or an error interface value (none is nil). -/
inductive FieldValue where
  | str (s : GoString)
  | err (e : Option GoError)
deriving DecidableEq

/-- One call to the logger: severity, the fields given to WithField(s) in the order
they are written, and the message. -/
structure LogEntry where
  level : Level
  fields : List (GoString × FieldValue)
  msg : GoString
deriving DecidableEq

/-! ## The event reporter -/

/-- The function actionToString of server.go, lines 133-146. -/
def actionToString (action : Action) (arg : GoString) : GoString :=
  if action = ActionDirect then lit "Direct"
  else if action = ActionProxy then lit "Proxy"
  else if action = ActionBlock then lit "Block"
  else if action = ActionHijack then lit "Hijack to " ++ arg
  else lit "Unknown"

/-- The function tcpRequestFunc of server.go, lines 110-116: the log entries it emits. -/
def tcpRequestFunc (addr : Addr) (_auth : List UInt8) (reqAddr : GoString)
    (action : Action) (arg : GoString) : List LogEntry :=
  [{ level := Level.Debug
     fields := [(lit "src", FieldValue.str addr.String),
                (lit "dst", FieldValue.str reqAddr),
                (lit "action", FieldValue.str (actionToString action arg))]
     msg := lit "TCP request" }]

/-- The function tcpErrorFunc of server.go, lines 118-131: the log entries it emits.
The argument err is an error interface value, none being nil. -/
def tcpErrorFunc (addr : Addr) (_auth : List UInt8) (reqAddr : GoString)
    (err : Option GoError) : List LogEntry :=
  if err ≠ some GoError.EOF then
    [{ level := Level.Info
       fields := [(lit "src", FieldValue.str addr.String),
                  (lit "dst", FieldValue.str reqAddr),
                  (lit "error", FieldValue.err err)]
       msg := lit "TCP error" }]
  else
    [{ level := Level.Debug
       fields := [(lit "src", FieldValue.str addr.String),
                  (lit "dst", FieldValue.str reqAddr)]
       msg := lit "TCP EOF" }]

/-! ## Configuration and collaborators -/

/-- The authentication block of the configuration: a mode name and the raw
mode-specific sub-document. -/
structure AuthConfig where
  Mode : GoString
  Config : List UInt8
deriving DecidableEq

/-- Modelled from the spec: the type serverConfig is declared outside server.go.  The
fields are those server() reads; the two windows are unsigned 64-bit numbers (they
are stored in the QUIC configuration without conversion), the bandwidth caps and the
stream count are Go ints (server() converts them). -/
structure serverConfig where
  Listen : GoString
  CertFile : GoString
  KeyFile : GoString
  UpMbps : Int
  DownMbps : Int
  ReceiveWindowConn : Nat
  ReceiveWindowClient : Nat
  MaxConnClient : Int
  Auth : AuthConfig
  ACL : GoString
  Obfs : GoString
deriving DecidableEq

/-- The numeric fields of a configuration lie in the ranges of their Go types
(uint64 for the windows, int for the caps and the stream count). -/
def serverConfig.InRange (config : serverConfig) : Prop :=
  config.ReceiveWindowConn < 2 ^ 64 ∧ config.ReceiveWindowClient < 2 ^ 64 ∧
  (-(2 ^ 63) ≤ config.UpMbps ∧ config.UpMbps < 2 ^ 63) ∧
  (-(2 ^ 63) ≤ config.DownMbps ∧ config.DownMbps < 2 ^ 63) ∧
  (-(2 ^ 63) ≤ config.MaxConnClient ∧ config.MaxConnClient < 2 ^ 63)

instance (config : serverConfig) : Decidable config.InRange := by
  unfold serverConfig.InRange
  infer_instance

/-- The package-level constants server() uses and server.go does not declare.  They
are parameters of the model. -/
structure Consts where
  DefaultMaxReceiveStreamFlowControlWindow : Nat
  DefaultMaxReceiveConnectionFlowControlWindow : Nat
  DefaultMaxIncomingStreams : Int
  mbpsToBps : Nat
  tlsProtocolName : GoString
deriving DecidableEq

/-- A tls.Certificate, named by the two files it was read from. -/
structure Certificate where
  certFile : GoString
  keyFile : GoString
deriving DecidableEq

/-- The constant tls.VersionTLS13 of crypto/tls. -/
def VersionTLS13 : Nat := 0x0304

/-- The fields of tls.Config that server() sets. -/
structure TLSConfig where
  Certificates : List Certificate
  NextProtos : List GoString
  MinVersion : Nat
deriving DecidableEq

/-- The fields of quic.Config that server() sets. -/
structure QuicConfig where
  MaxReceiveStreamFlowControlWindow : Nat
  MaxReceiveConnectionFlowControlWindow : Nat
  MaxIncomingStreams : Int
  KeepAlive : Bool
deriving DecidableEq

/-- The congestion controller made by hyCongestion.NewBrutalSender, named by the
reference rate it was made for. -/
structure CongestionControl where
  refBPS : Nat
deriving DecidableEq

/-- The server handle returned by core.NewServer. -/
structure Server where
  id : Nat
deriving DecidableEq

/-- An authentication strategy: peer address, credential bytes, bytes sent, bytes
received give a verdict and a message. -/
abbrev AuthFunc := Addr → List UInt8 → Nat → Nat → Bool × GoString

/-- The eleven arguments of core.NewServer. -/
structure ServerArgs where
  addr : GoString
  tlsConfig : TLSConfig
  quicConfig : QuicConfig
  sendBPS : Nat
  recvBPS : Nat
  congestionFactory : Nat → CongestionControl
  aclEngine : Option Engine
  obfuscator : Option (List UInt8)
  authFunc : AuthFunc
  tcpRequestFunc : Addr → List UInt8 → GoString → Action → GoString → List LogEntry
  tcpErrorFunc : Addr → List UInt8 → GoString → Option GoError → List LogEntry

/-- What the collaborators of server() answer.  A pair (value, error) is a Go result
pair, the error none being nil. -/
structure World where
  /-- The text config.String(). -/
  configString : serverConfig → GoString
  /-- The result of tls.LoadX509KeyPair(certFile, keyFile). -/
  LoadX509KeyPair : GoString → GoString → Certificate × Option GoError
  /-- The result of json5.Unmarshal(data, &m) for a nil map[string]string m: the map
  afterwards, as key-value pairs, and the error. -/
  Unmarshal : List UInt8 → List (GoString × GoString) × Option GoError
  /-- The result of acl.LoadFromFile(path); the engine pointer may be nil. -/
  LoadFromFile : GoString → Option Engine × Option GoError
  /-- The result of core.NewServer(...). -/
  NewServer : ServerArgs → Server × Option GoError
  /-- The error returned by server.Serve(). -/
  Serve : Server → Option GoError

/-- Indexing a Go map[string]string: the value of the key, the empty string when the
key is absent (also in a nil map). -/
def mapIndex (m : List (GoString × GoString)) (key : GoString) : GoString :=
  match m.find? (fun kv => kv.1 = key) with
  | some kv => kv.2
  | none => []

/-! ## Runs -/

/-- What a run of server() does that can be seen from outside, in order. -/
inductive Event where
  | log (e : LogEntry)
  | LoadX509KeyPair (certFile keyFile : GoString)
  | Unmarshal (data : List UInt8)
  | LoadFromFile (path : GoString)
  | NewServer (args : ServerArgs)
  | Serve (s : Server)
  | Close (s : Server)
  | Exit (code : Nat)
  | Panic

/-- The kind of an event, without its arguments. -/
inductive EventKind where
  | log
  | LoadX509KeyPair
  | Unmarshal
  | LoadFromFile
  | NewServer
  | Serve
  | Close
  | Exit
  | Panic
deriving DecidableEq

/-- The kind of an event. -/
def Event.kind : Event → EventKind
  | Event.log _ => EventKind.log
  | Event.LoadX509KeyPair _ _ => EventKind.LoadX509KeyPair
  | Event.Unmarshal _ => EventKind.Unmarshal
  | Event.LoadFromFile _ => EventKind.LoadFromFile
  | Event.NewServer _ => EventKind.NewServer
  | Event.Serve _ => EventKind.Serve
  | Event.Close _ => EventKind.Close
  | Event.Exit _ => EventKind.Exit
  | Event.Panic => EventKind.Panic

/-- How control leaves a piece of code: it goes on with a value, the process has
ended by os.Exit, or a run-time panic is unwinding. -/
inductive Ctl (α : Type) where
  | next (a : α)
  | exit (code : Nat)
  | panic

/-- A piece of sequential code: the events it produced and how control left it. -/
structure Proc (α : Type) where
  trace : List Event
  ctl : Ctl α

/-- Sequencing: the second piece runs only if control went on from the first. -/
def Proc.bind {α β : Type} (p : Proc α) (f : α → Proc β) : Proc β :=
  match p.ctl with
  | Ctl.next a => { trace := p.trace ++ (f a).trace, ctl := (f a).ctl }
  | Ctl.exit c => { trace := p.trace, ctl := Ctl.exit c }
  | Ctl.panic => { trace := p.trace, ctl := Ctl.panic }

instance Proc.instMonad : Monad Proc where
  pure a := { trace := [], ctl := Ctl.next a }
  bind := Proc.bind

/-- A single observable event, after which control goes on. -/
def emit (e : Event) : Proc Unit := { trace := [e], ctl := Ctl.next () }

/-- A logrus call below the Fatal level: one entry, control goes on. -/
def logrus (level : Level) (fields : List (GoString × FieldValue)) (msg : GoString) :
    Proc Unit :=
  emit (Event.log { level := level, fields := fields, msg := msg })

/-- The logrus call Fatal: the entry is logged and the logger calls os.Exit(1).  The
process ends there: nothing after the call runs, and os.Exit does not run deferred
calls. -/
def logrusFatal {α : Type} (fields : List (GoString × FieldValue)) (msg : GoString) :
    Proc α :=
  { trace := [Event.log { level := Level.Fatal, fields := fields, msg := msg },
              Event.Exit 1],
    ctl := Ctl.exit 1 }

/-- A run-time panic (here: a nil pointer dereference). -/
def goPanic {α : Type} : Proc α := { trace := [Event.Panic], ctl := Ctl.panic }

/-- The end of a function body with deferred calls: when the body returns or panics
the deferred calls run, last registered first; when the process has ended by
os.Exit they do not run. -/
def Proc.withDeferred {α : Type} (body : Proc α) (deferred : List Event) : Proc α :=
  match body.ctl with
  | Ctl.exit c => { trace := body.trace, ctl := Ctl.exit c }
  | Ctl.next a => { trace := body.trace ++ deferred.reverse, ctl := Ctl.next a }
  | Ctl.panic => { trace := body.trace ++ deferred.reverse, ctl := Ctl.panic }

/-! ## server() -/

/-- Lines 33-48 of server(): the QUIC configuration, a zero field replaced by its
default. -/
def server_quicConfig (K : Consts) (config : serverConfig) : QuicConfig :=
  let quicConfig : QuicConfig :=
    { MaxReceiveStreamFlowControlWindow := config.ReceiveWindowConn
      MaxReceiveConnectionFlowControlWindow := config.ReceiveWindowClient
      MaxIncomingStreams := int64 config.MaxConnClient
      KeepAlive := true }
  let quicConfig : QuicConfig :=
    if quicConfig.MaxReceiveStreamFlowControlWindow = 0 then
      { quicConfig with
        MaxReceiveStreamFlowControlWindow := K.DefaultMaxReceiveStreamFlowControlWindow }
    else quicConfig
  let quicConfig : QuicConfig :=
    if quicConfig.MaxReceiveConnectionFlowControlWindow = 0 then
      { quicConfig with
        MaxReceiveConnectionFlowControlWindow :=
          K.DefaultMaxReceiveConnectionFlowControlWindow }
    else quicConfig
  let quicConfig : QuicConfig :=
    if quicConfig.MaxIncomingStreams = 0 then
      { quicConfig with MaxIncomingStreams := K.DefaultMaxIncomingStreams }
    else quicConfig
  quicConfig

/-- The strategy of lines 54-56: every attempt is welcome. -/
def authNone : AuthFunc :=
  fun _addr _auth _sSend _sRecv => (true, lit "Welcome")

/-- The strategy of lines 67-73, a closure over pwd: the credential bytes, read as a
string, are compared with pwd. -/
def authPassword (pwd : GoString) : AuthFunc :=
  fun _addr auth _sSend _sRecv =>
    if auth = pwd then (true, lit "Welcome") else (false, lit "Wrong password")

/-- Lines 49-76 of server(): the authentication strategy, chosen by the mode. -/
def server_auth (W : World) (config : serverConfig) : Proc AuthFunc :=
  let authMode := config.Auth.Mode
  if authMode = lit "" ∨ authMode = lit "none" then do
    logrus Level.Warn [] (lit "No authentication configured")
    pure authNone
  else if authMode = lit "password" then do
    logrus Level.Info [] (lit "Password authentication enabled")
    emit (Event.Unmarshal config.Auth.Config)
    let (pwdConfig, err) := W.Unmarshal config.Auth.Config
    if err ≠ none ∨ (mapIndex pwdConfig (lit "password")).length = 0 then
      logrusFatal [(lit "error", FieldValue.err err)]
        (lit "Invalid password authentication config")
    let pwd := mapIndex pwdConfig (lit "password")
    pure (authPassword pwd)
  else
    logrusFatal [(lit "mode", FieldValue.str config.Auth.Mode)]
      (lit "Unsupported authentication mode")

/-- Lines 77-81 of server(): the obfuscator, the bytes of the secret when there is
one. -/
def server_obfuscator (config : serverConfig) : Option (List UInt8) :=
  if config.Obfs.length > 0 then some config.Obfs else none

/-- Lines 82-93 of server(): the ACL engine. -/
def server_acl (W : World) (config : serverConfig) : Proc (Option Engine) :=
  if config.ACL.length > 0 then do
    emit (Event.LoadFromFile config.ACL)
    let (aclEngine, err) := W.LoadFromFile config.ACL
    if err ≠ none then
      logrusFatal [(lit "error", FieldValue.err err), (lit "file", FieldValue.str config.ACL)]
        (lit "Failed to parse ACL")
    match aclEngine with
    | none => goPanic
    | some engine => pure (some { engine with DefaultAction := ActionDirect })
  else
    pure none

/-- The congestion factory of lines 97-99. -/
def congestionFactory (refBPS : Nat) : CongestionControl := { refBPS := refBPS }

/-- Lines 94-107 of server(): the server is built from args, the arguments of lines
95-99, its Close is deferred, and the serve loop runs. -/
def server_serve (W : World) (config : serverConfig) (args : ServerArgs) : Proc Unit := do
  emit (Event.NewServer args)
  let (server, err) := W.NewServer args
  if err ≠ none then
    logrusFatal [(lit "error", FieldValue.err err)] (lit "Failed to initialize server")
  -- defer server.Close()
  Proc.withDeferred (do
    logrus Level.Info [(lit "addr", FieldValue.str config.Listen)]
      (lit "Server up and running")
    emit (Event.Serve server)
    let err := W.Serve server
    logrusFatal [(lit "error", FieldValue.err err)] (lit "Server shutdown"))
    [Event.Close server]

/-- The arguments of core.NewServer at lines 95-99. -/
def server_args (K : Consts) (config : serverConfig) (tlsConfig : TLSConfig)
    (quicConfig : QuicConfig) (aclEngine : Option Engine) (obfuscator : Option (List UInt8))
    (authFunc : AuthFunc) : ServerArgs :=
  { addr := config.Listen
    tlsConfig := tlsConfig
    quicConfig := quicConfig
    sendBPS := (uint64 config.UpMbps * K.mbpsToBps) % 2 ^ 64
    recvBPS := (uint64 config.DownMbps * K.mbpsToBps) % 2 ^ 64
    congestionFactory := congestionFactory
    aclEngine := aclEngine
    obfuscator := obfuscator
    authFunc := authFunc
    tcpRequestFunc := tcpRequestFunc
    tcpErrorFunc := tcpErrorFunc }

/-- Lines 28-32 of server(): the TLS configuration. -/
def server_tlsConfig (K : Consts) (cert : Certificate) : TLSConfig :=
  { Certificates := [cert]
    NextProtos := [K.tlsProtocolName]
    MinVersion := VersionTLS13 }

/-- The function server of server.go, lines 17-108. -/
def server (K : Consts) (W : World) (config : serverConfig) : Proc Unit := do
  logrus Level.Info [(lit "config", FieldValue.str (W.configString config))]
    (lit "Server configuration loaded")
  -- Load cert
  emit (Event.LoadX509KeyPair config.CertFile config.KeyFile)
  let (cert, err) := W.LoadX509KeyPair config.CertFile config.KeyFile
  if err ≠ none then
    logrusFatal [(lit "error", FieldValue.err err),
                 (lit "cert", FieldValue.str config.CertFile),
                 (lit "key", FieldValue.str config.KeyFile)]
      (lit "Failed to load the certificate")
  let tlsConfig := server_tlsConfig K cert
  -- QUIC config
  let quicConfig := server_quicConfig K config
  -- Auth
  let authFunc ← server_auth W config
  -- Obfuscator
  let obfuscator := server_obfuscator config
  -- ACL
  let aclEngine ← server_acl W config
  -- Server
  server_serve W config
    (server_args K config tlsConfig quicConfig aclEngine obfuscator authFunc)

/-- Modelled from the spec: the three default constants are declared outside
server.go and the spec gives them no value; it says that each resolved field is
guaranteed non-zero, which is to say that each default is non-zero. -/
def Consts.DefaultsNonZero (K : Consts) : Prop :=
  K.DefaultMaxReceiveStreamFlowControlWindow ≠ 0 ∧
  K.DefaultMaxReceiveConnectionFlowControlWindow ≠ 0 ∧
  K.DefaultMaxIncomingStreams ≠ 0

instance (K : Consts) : Decidable K.DefaultsNonZero := by
  unfold Consts.DefaultsNonZero
  infer_instance

/-! ## Example inputs -/

/-- Example constants. -/
def exConsts : Consts :=
  { DefaultMaxReceiveStreamFlowControlWindow := 33554432
    DefaultMaxReceiveConnectionFlowControlWindow := 67108864
    DefaultMaxIncomingStreams := 200
    mbpsToBps := 125000
    tlsProtocolName := lit "hysteria" }

/-- An example world in which everything succeeds: the certificate loads, the
password document holds the password hunter2, the ACL file loads with the default
action proxy, the server is built and its serve loop returns the given error. -/
def exWorld (serveErr : Option GoError) : World :=
  { configString := fun _ => lit "config"
    LoadX509KeyPair := fun c k => ({ certFile := c, keyFile := k }, none)
    Unmarshal := fun _ => ([(lit "password", lit "hunter2")], none)
    LoadFromFile := fun _ =>
      (some { DefaultAction := ActionProxy, Entries := [] }, none)
    NewServer := fun _ => ({ id := 1 }, none)
    Serve := fun _ => serveErr }

/-- An example world in which the certificate does not load. -/
def exWorldBadCert : World :=
  { exWorld none with
    LoadX509KeyPair := fun c k =>
      ({ certFile := c, keyFile := k }, some (GoError.other (lit "no such file"))) }

/-- An example configuration: given authentication mode and ACL path, every number
left at zero. -/
def exConfig (mode : GoString) (aclPath : GoString) : serverConfig :=
  { Listen := lit ":36712"
    CertFile := lit "a.crt"
    KeyFile := lit "a.key"
    UpMbps := 10
    DownMbps := 50
    ReceiveWindowConn := 0
    ReceiveWindowClient := 0
    MaxConnClient := 0
    Auth := { Mode := mode, Config := [] }
    ACL := aclPath
    Obfs := [] }

/-- The arguments core.NewServer is called with in the example world, for the
example configuration without authentication and with the ACL path acl.txt. -/
def exArgs : ServerArgs :=
  server_args exConsts (exConfig (lit "none") (lit "acl.txt"))
    (server_tlsConfig exConsts { certFile := lit "a.crt", keyFile := lit "a.key" })
    (server_quicConfig exConsts (exConfig (lit "none") (lit "acl.txt")))
    (some { DefaultAction := ActionDirect, Entries := [] }) none authNone

/-! ## Sequencing lemmas -/

theorem Proc.bind_eq {α β : Type} (p : Proc α) (f : α → Proc β) :
    (p >>= f) = Proc.bind p f := rfl

theorem Proc.pure_eq {α : Type} (a : α) :
    (pure a : Proc α) = { trace := [], ctl := Ctl.next a } := rfl

/-- An event of a sequence comes from the first piece, or from the second, which
then ran on the value the first went on with. -/
theorem Proc.mem_bind {α β : Type} (p : Proc α) (f : α → Proc β) (e : Event)
    (h : e ∈ (Proc.bind p f).trace) :
    e ∈ p.trace ∨ ∃ a, p.ctl = Ctl.next a ∧ e ∈ (f a).trace := by
  unfold Proc.bind at h
  cases hp : p.ctl with
  | next a =>
    rw [hp] at h
    rcases List.mem_append.mp h with h1 | h2
    · exact Or.inl h1
    · exact Or.inr ⟨a, rfl, h2⟩
  | exit c =>
    rw [hp] at h
    exact Or.inl h
  | panic =>
    rw [hp] at h
    exact Or.inl h

/-- The run of lines 82-93: no path, no engine. -/
theorem server_acl_empty (W : World) (config : serverConfig) (h : config.ACL = []) :
    server_acl W config = { trace := [], ctl := Ctl.next none } := by
  simp [server_acl, h, Proc.pure_eq]

/-- The events of lines 82-93 are a call of the loader, a log entry, the exit and a
panic. -/
theorem server_acl_kinds (W : World) (config : serverConfig) (e : Event)
    (h : e ∈ (server_acl W config).trace) :
    e.kind = EventKind.LoadFromFile ∨ e.kind = EventKind.log ∨ e.kind = EventKind.Exit ∨
      e.kind = EventKind.Panic := by
  unfold server_acl at h
  split_ifs at h with hp
  · rcases hl : W.LoadFromFile config.ACL with ⟨eng, err⟩
    rw [hl] at h
    cases err <;> cases eng <;>
      simp [Proc.bind_eq, Proc.pure_eq, Proc.bind, emit, logrusFatal, goPanic] at h <;>
      (try rcases h with h | h | h) <;> subst_vars <;> simp [Event.kind]
  · simp [Proc.pure_eq] at h

/-- Control after lines 82-93, when it goes on: the engine is absent exactly when no
path is configured, and a present engine is the loaded one with its default action
overwritten. -/
theorem server_acl_next (W : World) (config : serverConfig) (aclEngine : Option Engine)
    (h : (server_acl W config).ctl = Ctl.next aclEngine) :
    (config.ACL = [] ∧ aclEngine = none) ∨
    (config.ACL ≠ [] ∧ ∃ loaded, W.LoadFromFile config.ACL = (some loaded, none) ∧
      aclEngine = some { loaded with DefaultAction := ActionDirect }) := by
  unfold server_acl at h
  split_ifs at h with hp
  · right
    have hne : config.ACL ≠ [] := by
      intro h0
      simp [h0] at hp
    refine ⟨hne, ?_⟩
    rcases hl : W.LoadFromFile config.ACL with ⟨eng, err⟩
    rw [hl] at h
    cases err <;> cases eng <;>
      simp [Proc.bind_eq, Proc.pure_eq, Proc.bind, emit, logrusFatal, goPanic] at h
    exact ⟨_, rfl, h.symm⟩
  · left
    simp [Proc.pure_eq] at h
    refine ⟨?_, h.symm⟩
    simpa using hp

/-- The run of lines 49-76 in the modes without authentication. -/
theorem server_auth_none (W : World) (config : serverConfig)
    (h : config.Auth.Mode = lit "" ∨ config.Auth.Mode = lit "none") :
    server_auth W config =
      { trace := [Event.log { level := Level.Warn, fields := [],
                              msg := lit "No authentication configured" }],
        ctl := Ctl.next authNone } := by
  simp [server_auth, h, Proc.bind_eq, Proc.pure_eq, Proc.bind, logrus, emit]

/-- The run of lines 49-76 in password mode when the document does not parse or
gives no password. -/
theorem server_auth_password_fatal (W : World) (config : serverConfig)
    (h : config.Auth.Mode = lit "password")
    (hbad : (W.Unmarshal config.Auth.Config).2 ≠ none ∨
      mapIndex (W.Unmarshal config.Auth.Config).1 (lit "password") = []) :
    server_auth W config =
      { trace := [Event.log { level := Level.Info, fields := [],
                              msg := lit "Password authentication enabled" },
                  Event.Unmarshal config.Auth.Config,
                  Event.log { level := Level.Fatal,
                              fields := [(lit "error",
                                FieldValue.err (W.Unmarshal config.Auth.Config).2)],
                              msg := lit "Invalid password authentication config" },
                  Event.Exit 1],
        ctl := Ctl.exit 1 } := by
  have hne : ¬ (lit "password" = lit "" ∨ lit "password" = lit "none") := by decide
  rcases hu : W.Unmarshal config.Auth.Config with ⟨m, e⟩
  rw [hu] at hbad
  have hc2 : ¬ e = none ∨ mapIndex m (lit "password") = [] := hbad
  simp [server_auth, h, hne, hu, Proc.bind_eq, Proc.pure_eq, Proc.bind, logrus, emit,
    logrusFatal, hc2]

/-- The run of lines 49-76 in password mode when the document gives a password. -/
theorem server_auth_password_built (W : World) (config : serverConfig)
    (h : config.Auth.Mode = lit "password")
    (hok : ¬ ((W.Unmarshal config.Auth.Config).2 ≠ none ∨
      mapIndex (W.Unmarshal config.Auth.Config).1 (lit "password") = [])) :
    server_auth W config =
      { trace := [Event.log { level := Level.Info, fields := [],
                              msg := lit "Password authentication enabled" },
                  Event.Unmarshal config.Auth.Config],
        ctl := Ctl.next
          (authPassword (mapIndex (W.Unmarshal config.Auth.Config).1 (lit "password"))) } := by
  have hne : ¬ (lit "password" = lit "" ∨ lit "password" = lit "none") := by decide
  rcases hu : W.Unmarshal config.Auth.Config with ⟨m, e⟩
  rw [hu] at hok
  have hc2 : ¬ (¬ e = none ∨ mapIndex m (lit "password") = []) := hok
  simp [server_auth, h, hne, hu, Proc.bind_eq, Proc.pure_eq, Proc.bind, logrus, emit,
    logrusFatal, hc2]

/-- The run of lines 49-76 in any other mode. -/
theorem server_auth_other (W : World) (config : serverConfig)
    (h0 : config.Auth.Mode ≠ lit "") (h1 : config.Auth.Mode ≠ lit "none")
    (h2 : config.Auth.Mode ≠ lit "password") :
    server_auth W config =
      { trace := [Event.log { level := Level.Fatal,
                              fields := [(lit "mode", FieldValue.str config.Auth.Mode)],
                              msg := lit "Unsupported authentication mode" },
                  Event.Exit 1],
        ctl := Ctl.exit 1 } := by
  simp [server_auth, h0, h1, h2, logrusFatal]

/-- The events of lines 49-76 are log entries, a call of the JSON5 parser and the
exit. -/
theorem server_auth_kinds (W : World) (config : serverConfig) (e : Event)
    (h : e ∈ (server_auth W config).trace) :
    e.kind = EventKind.log ∨ e.kind = EventKind.Unmarshal ∨ e.kind = EventKind.Exit := by
  by_cases h0 : config.Auth.Mode = lit "" ∨ config.Auth.Mode = lit "none"
  · rw [server_auth_none W config h0] at h
    simp at h
    subst h
    simp [Event.kind]
  · by_cases h1 : config.Auth.Mode = lit "password"
    · by_cases hbad : (W.Unmarshal config.Auth.Config).2 ≠ none ∨
          mapIndex (W.Unmarshal config.Auth.Config).1 (lit "password") = []
      · rw [server_auth_password_fatal W config h1 hbad] at h
        simp at h
        rcases h with h | h | h | h <;> subst h <;> simp [Event.kind]
      · rw [server_auth_password_built W config h1 hbad] at h
        simp at h
        rcases h with h | h <;> subst h <;> simp [Event.kind]
    · rw [server_auth_other W config (fun h => h0 (Or.inl h)) (fun h => h0 (Or.inr h)) h1] at h
      simp at h
      rcases h with h | h <;> subst h <;> simp [Event.kind]

/-- The run of lines 94-107, in full. -/
theorem server_serve_run (W : World) (config : serverConfig) (args : ServerArgs) :
    server_serve W config args =
      if (W.NewServer args).2 ≠ none then
        { trace := [Event.NewServer args,
                    Event.log { level := Level.Fatal,
                                fields := [(lit "error", FieldValue.err (W.NewServer args).2)],
                                msg := lit "Failed to initialize server" },
                    Event.Exit 1],
          ctl := Ctl.exit 1 }
      else
        { trace := [Event.NewServer args,
                    Event.log { level := Level.Info,
                                fields := [(lit "addr", FieldValue.str config.Listen)],
                                msg := lit "Server up and running" },
                    Event.Serve (W.NewServer args).1,
                    Event.log { level := Level.Fatal,
                                fields := [(lit "error",
                                  FieldValue.err (W.Serve (W.NewServer args).1))],
                                msg := lit "Server shutdown" },
                    Event.Exit 1],
          ctl := Ctl.exit 1 } := by
  unfold server_serve
  rcases hn : W.NewServer args with ⟨srv, err⟩
  cases err <;>
    simp [Proc.bind_eq, Proc.pure_eq, Proc.bind, emit, logrus, logrusFatal, Proc.withDeferred]

/-- The run of server() when the certificate does not load. -/
theorem server_run_cert_failure (K : Consts) (W : World) (config : serverConfig)
    (h : (W.LoadX509KeyPair config.CertFile config.KeyFile).2 ≠ none) :
    server K W config =
      { trace := [Event.log { level := Level.Info,
                              fields := [(lit "config", FieldValue.str (W.configString config))],
                              msg := lit "Server configuration loaded" },
                  Event.LoadX509KeyPair config.CertFile config.KeyFile,
                  Event.log { level := Level.Fatal,
                              fields := [(lit "error",
                                  FieldValue.err (W.LoadX509KeyPair config.CertFile config.KeyFile).2),
                                (lit "cert", FieldValue.str config.CertFile),
                                (lit "key", FieldValue.str config.KeyFile)],
                              msg := lit "Failed to load the certificate" },
                  Event.Exit 1],
        ctl := Ctl.exit 1 } := by
  unfold server
  rcases hl : W.LoadX509KeyPair config.CertFile config.KeyFile with ⟨cert, err⟩
  rw [hl] at h
  cases err with
  | none => exact absurd rfl h
  | some err =>
    simp [Proc.bind_eq, Proc.pure_eq, Proc.bind, emit, logrus, logrusFatal]

/-- The run of server() when the certificate loads: the two opening events, then
lines 49-76, lines 82-93 and lines 94-107 in sequence. -/
theorem server_run_cert_loaded (K : Consts) (W : World) (config : serverConfig)
    (h : (W.LoadX509KeyPair config.CertFile config.KeyFile).2 = none) :
    server K W config =
      Proc.bind
        { trace := [Event.log { level := Level.Info,
                                fields := [(lit "config",
                                  FieldValue.str (W.configString config))],
                                msg := lit "Server configuration loaded" },
                    Event.LoadX509KeyPair config.CertFile config.KeyFile],
          ctl := Ctl.next () }
        (fun _ => Proc.bind (server_auth W config) (fun authFunc =>
          Proc.bind (server_acl W config) (fun aclEngine =>
            server_serve W config
              (server_args K config
                (server_tlsConfig K (W.LoadX509KeyPair config.CertFile config.KeyFile).1)
                (server_quicConfig K config) aclEngine (server_obfuscator config)
                authFunc)))) := by
  unfold server
  rcases hl : W.LoadX509KeyPair config.CertFile config.KeyFile with ⟨cert, err⟩
  rw [hl] at h
  dsimp only at h
  subst h
  simp only [Proc.bind_eq, Proc.pure_eq, emit, logrus, logrusFatal]
  simp [Proc.bind]

/-- Indexing a map by a key it does not hold gives the empty string. -/
theorem mapIndex_absent (m : List (GoString × GoString)) (key : GoString)
    (h : ∀ kv ∈ m, kv.1 ≠ key) : mapIndex m key = [] := by
  unfold mapIndex
  have hf : m.find? (fun kv => decide (kv.1 = key)) = none := by
    rw [List.find?_eq_none]
    intro kv hkv
    simpa using h kv hkv
  rw [hf]

/-- The arguments of every call of core.NewServer in a run of server(): the
certificate loaded, lines 49-76 went on with the strategy, lines 82-93 went on with
the engine, and the arguments are those of lines 95-99. -/
theorem server_newServer_args (K : Consts) (W : World) (config : serverConfig)
    (args : ServerArgs) (h : Event.NewServer args ∈ (server K W config).trace) :
    (W.LoadX509KeyPair config.CertFile config.KeyFile).2 = none ∧
    ∃ authFunc aclEngine,
      (server_auth W config).ctl = Ctl.next authFunc ∧
      (server_acl W config).ctl = Ctl.next aclEngine ∧
      args = server_args K config
        (server_tlsConfig K (W.LoadX509KeyPair config.CertFile config.KeyFile).1)
        (server_quicConfig K config) aclEngine (server_obfuscator config) authFunc := by
  by_cases hc : (W.LoadX509KeyPair config.CertFile config.KeyFile).2 = none
  · refine ⟨hc, ?_⟩
    rw [server_run_cert_loaded K W config hc] at h
    rcases Proc.mem_bind _ _ _ h with h1 | ⟨_, -, h1⟩
    · simp at h1
    · rcases Proc.mem_bind _ _ _ h1 with h2 | ⟨authFunc, ha, h2⟩
      · have := server_auth_kinds W config _ h2
        simp [Event.kind] at this
      · rcases Proc.mem_bind _ _ _ h2 with h3 | ⟨aclEngine, hb, h3⟩
        · have := server_acl_kinds W config _ h3
          simp [Event.kind] at this
        · refine ⟨authFunc, aclEngine, ha, hb, ?_⟩
          rw [server_serve_run] at h3
          split_ifs at h3 <;> simpa using h3
  · rw [server_run_cert_failure K W config hc] at h
    simp at h

/-- No run of server() calls the Close method of the server. -/
theorem server_never_closes (K : Consts) (W : World) (config : serverConfig) :
    EventKind.Close ∉ (server K W config).trace.map Event.kind := by
  intro hmem
  obtain ⟨e, h, hk⟩ := List.mem_map.mp hmem
  by_cases hc : (W.LoadX509KeyPair config.CertFile config.KeyFile).2 = none
  · rw [server_run_cert_loaded K W config hc] at h
    rcases Proc.mem_bind _ _ _ h with h1 | ⟨_, -, h1⟩
    · simp at h1
      rcases h1 with h1 | h1 <;> subst h1 <;> simp [Event.kind] at hk
    · rcases Proc.mem_bind _ _ _ h1 with h2 | ⟨authFunc, -, h2⟩
      · have := server_auth_kinds W config _ h2
        simp [hk] at this
      · rcases Proc.mem_bind _ _ _ h2 with h3 | ⟨aclEngine, -, h3⟩
        · have := server_acl_kinds W config _ h3
          simp [hk] at this
        · rw [server_serve_run] at h3
          split_ifs at h3 <;> simp at h3
          · rcases h3 with h3 | h3 | h3 <;> subst h3 <;> simp [Event.kind] at hk
          · rcases h3 with h3 | h3 | h3 | h3 | h3 <;> subst h3 <;> simp [Event.kind] at hk
  · rw [server_run_cert_failure K W config hc] at h
    simp at h
    rcases h with h | h | h | h <;> subst h <;> simp [Event.kind] at hk


/-- C9: actionToString gives Direct, Proxy and Block for the three actions of these
names, the text Hijack to followed by the argument for the hijack action, and Unknown
for every other action value; except for the hijack action the result does not
depend on the argument. -/
theorem actionToString_labels (action : Action) (arg arg2 : GoString) :
    actionToString ActionDirect arg = lit "Direct" ∧
    actionToString ActionProxy arg = lit "Proxy" ∧
    actionToString ActionBlock arg = lit "Block" ∧
    actionToString ActionHijack arg = lit "Hijack to " ++ arg ∧
    (action ∉ [ActionDirect, ActionProxy, ActionBlock, ActionHijack] →
      actionToString action arg = lit "Unknown") ∧
    (action ≠ ActionHijack → actionToString action arg = actionToString action arg2) := by
  refine ⟨rfl, rfl, rfl, rfl, ?_, ?_⟩
  · intro h
    simp only [List.mem_cons, List.mem_singleton, not_or, List.not_mem_nil, or_false] at h
    obtain ⟨h0, h1, h2, h3⟩ := h
    simp [actionToString, h0, h1, h2, h3]
  · intro h
    simp [actionToString, h]

/-- C9, at the hijack argument 1.2.3.4 and at the unnamed action value 7. -/
theorem actionToString_labels_witness :
    actionToString ActionHijack (lit "1.2.3.4") = lit "Hijack to 1.2.3.4" ∧
    actionToString 7 (lit "1.2.3.4") = lit "Unknown" ∧
    actionToString 7 (lit "1.2.3.4") = actionToString 7 (lit "5.6.7.8") :=
  ⟨(actionToString_labels 7 (lit "1.2.3.4") (lit "5.6.7.8")).2.2.2.1.trans (by decide),
   (actionToString_labels 7 (lit "1.2.3.4") (lit "5.6.7.8")).2.2.2.2.1 (by decide),
   (actionToString_labels 7 (lit "1.2.3.4") (lit "5.6.7.8")).2.2.2.2.2 (by decide)⟩

/-- C10: tcpErrorFunc emits exactly one log entry; for io.EOF it is a Debug entry
with the source and destination fields only, for every other error value (nil
included) it is an Info entry with source, destination and the error. -/
theorem tcpErrorFunc_entry (addr : Addr) (auth : List UInt8) (reqAddr : GoString)
    (err : Option GoError) :
    ∃ e : LogEntry, tcpErrorFunc addr auth reqAddr err = [e] ∧
      (err = some GoError.EOF →
        e.level = Level.Debug ∧
        e.fields = [(lit "src", FieldValue.str addr.String),
                    (lit "dst", FieldValue.str reqAddr)]) ∧
      (err ≠ some GoError.EOF →
        e.level = Level.Info ∧
        e.fields = [(lit "src", FieldValue.str addr.String),
                    (lit "dst", FieldValue.str reqAddr),
                    (lit "error", FieldValue.err err)]) := by
  by_cases h : err = some GoError.EOF
  · subst h
    exact ⟨_, rfl, fun _ => ⟨rfl, rfl⟩, fun h2 => absurd rfl h2⟩
  · have hrun : tcpErrorFunc addr auth reqAddr err =
        [{ level := Level.Info
           fields := [(lit "src", FieldValue.str addr.String),
                      (lit "dst", FieldValue.str reqAddr),
                      (lit "error", FieldValue.err err)]
           msg := lit "TCP error" }] := by
      simp [tcpErrorFunc, h]
    exact ⟨_, hrun, fun h2 => absurd h2 h, fun _ => ⟨rfl, rfl⟩⟩

/-- C10, for a connection reset: one Info entry that carries the error. -/
theorem tcpErrorFunc_entry_witness :
    ∃ e : LogEntry,
      tcpErrorFunc { Network := lit "udp", String := lit "10.0.0.1:4000" } []
        (lit "example.com:443") (some (GoError.other (lit "connection reset"))) = [e] ∧
      e.level = Level.Info ∧
      e.fields = [(lit "src", FieldValue.str (lit "10.0.0.1:4000")),
                  (lit "dst", FieldValue.str (lit "example.com:443")),
                  (lit "error",
                    FieldValue.err (some (GoError.other (lit "connection reset"))))] :=
  match tcpErrorFunc_entry { Network := lit "udp", String := lit "10.0.0.1:4000" } []
      (lit "example.com:443") (some (GoError.other (lit "connection reset"))) with
  | ⟨e, he, _, hother⟩ => ⟨e, he, hother (by decide)⟩

/-! ## Properties of the default resolver -/

/-- C5: in the QUIC configuration built by server(), each of the three limits is the
default constant when the configured value is zero and the configured value when it
is not, and all three are non-zero. -/
theorem server_quicConfig_resolved (K : Consts) (config : serverConfig)
    (hK : K.DefaultsNonZero) (hc : config.InRange) :
    (server_quicConfig K config).MaxReceiveStreamFlowControlWindow =
      (if config.ReceiveWindowConn = 0 then K.DefaultMaxReceiveStreamFlowControlWindow
       else config.ReceiveWindowConn) ∧
    (server_quicConfig K config).MaxReceiveConnectionFlowControlWindow =
      (if config.ReceiveWindowClient = 0 then K.DefaultMaxReceiveConnectionFlowControlWindow
       else config.ReceiveWindowClient) ∧
    (server_quicConfig K config).MaxIncomingStreams =
      (if config.MaxConnClient = 0 then K.DefaultMaxIncomingStreams
       else config.MaxConnClient) ∧
    (server_quicConfig K config).MaxReceiveStreamFlowControlWindow ≠ 0 ∧
    (server_quicConfig K config).MaxReceiveConnectionFlowControlWindow ≠ 0 ∧
    (server_quicConfig K config).MaxIncomingStreams ≠ 0 := by
  obtain ⟨hK1, hK2, hK3⟩ := hK
  obtain ⟨-, -, -, -, hlo, hhi⟩ := hc
  have h64 : int64 config.MaxConnClient = config.MaxConnClient := by
    unfold int64
    omega
  simp only [server_quicConfig, h64]
  refine ⟨?_, ?_, ?_, ?_, ?_, ?_⟩ <;> split_ifs <;> simp_all

/-! ## Properties of the authentication strategies -/

/-- C1: in password mode, when start-up constructs a strategy, that strategy answers
true and Welcome when the credential bytes are exactly the bytes of the configured
password, and false and Wrong password otherwise, whatever the peer address and the
byte counts. -/
theorem server_auth_password_verdict (W : World) (config : serverConfig) (pwd : GoString)
    (authFunc : AuthFunc)
    (hmode : config.Auth.Mode = lit "password")
    (hpwd : mapIndex (W.Unmarshal config.Auth.Config).1 (lit "password") = pwd)
    (hbuilt : (server_auth W config).ctl = Ctl.next authFunc)
    (addr : Addr) (auth : List UInt8) (sSend sRecv : Nat) :
    authFunc addr auth sSend sRecv =
      if auth = pwd then (true, lit "Welcome") else (false, lit "Wrong password") := by
  by_cases hbad : (W.Unmarshal config.Auth.Config).2 ≠ none ∨
      mapIndex (W.Unmarshal config.Auth.Config).1 (lit "password") = []
  · rw [server_auth_password_fatal W config hmode hbad] at hbuilt
    cases hbuilt
  · rw [server_auth_password_built W config hmode hbad] at hbuilt
    cases hbuilt
    rw [hpwd]
    rfl

/-- C1, for the password hunter2 and the credential hunter3. -/
theorem server_auth_password_verdict_witness :
    authPassword (lit "hunter2") { Network := lit "udp", String := lit "10.0.0.1:4000" }
        (lit "hunter3") 0 0 =
      if lit "hunter3" = lit "hunter2" then (true, lit "Welcome")
      else (false, lit "Wrong password") :=
  server_auth_password_verdict (exWorld none) (exConfig (lit "password") [])
    (lit "hunter2") (authPassword (lit "hunter2")) rfl rfl rfl
    { Network := lit "udp", String := lit "10.0.0.1:4000" } (lit "hunter3") 0 0

/-- C2: lines 49-76 end start-up fatally exactly when the mode is password and the
document does not parse or its password field is missing or empty, or the mode is
none of the three known names; in every other case a strategy is constructed.  When
the certificate has loaded and these lines end start-up, the run of server() ends
there. -/
theorem server_auth_fatal_iff (K : Consts) (W : World) (config : serverConfig)
    (hcert : (W.LoadX509KeyPair config.CertFile config.KeyFile).2 = none) :
    ((server_auth W config).ctl = Ctl.exit 1 ↔
      (config.Auth.Mode = lit "password" ∧
        ((W.Unmarshal config.Auth.Config).2 ≠ none ∨
         (∀ kv ∈ (W.Unmarshal config.Auth.Config).1, kv.1 ≠ lit "password") ∨
         mapIndex (W.Unmarshal config.Auth.Config).1 (lit "password") = [])) ∨
      (config.Auth.Mode ≠ lit "" ∧ config.Auth.Mode ≠ lit "none" ∧
        config.Auth.Mode ≠ lit "password")) ∧
    ((∃ authFunc, (server_auth W config).ctl = Ctl.next authFunc) ↔
      ¬ (server_auth W config).ctl = Ctl.exit 1) ∧
    ((server_auth W config).ctl = Ctl.exit 1 →
      (server K W config).ctl = Ctl.exit 1 ∧
      (server K W config).trace =
        [Event.log { level := Level.Info,
                     fields := [(lit "config", FieldValue.str (W.configString config))],
                     msg := lit "Server configuration loaded" },
         Event.LoadX509KeyPair config.CertFile config.KeyFile] ++
        (server_auth W config).trace) := by
  have hrun : (server_auth W config).ctl = Ctl.exit 1 →
      (server K W config).ctl = Ctl.exit 1 ∧
      (server K W config).trace =
        [Event.log { level := Level.Info,
                     fields := [(lit "config", FieldValue.str (W.configString config))],
                     msg := lit "Server configuration loaded" },
         Event.LoadX509KeyPair config.CertFile config.KeyFile] ++
        (server_auth W config).trace := by
    intro hx
    rw [server_run_cert_loaded K W config hcert]
    simp [Proc.bind, hx]
  by_cases h0 : config.Auth.Mode = lit "" ∨ config.Auth.Mode = lit "none"
  · have hne : config.Auth.Mode ≠ lit "password" := by
      rcases h0 with h0 | h0 <;> rw [h0] <;> decide
    have hctl : (server_auth W config).ctl = Ctl.next authNone := by
      rw [server_auth_none W config h0]
    refine ⟨?_, ?_, hrun⟩
    · rw [hctl]
      constructor
      · intro hx
        cases hx
      · rintro (⟨hp, -⟩ | ⟨ha, hb, -⟩)
        · exact absurd hp hne
        · rcases h0 with h0 | h0
          · exact absurd h0 ha
          · exact absurd h0 hb
    · rw [hctl]
      simp
  · have ha : config.Auth.Mode ≠ lit "" := fun h => h0 (Or.inl h)
    have hb : config.Auth.Mode ≠ lit "none" := fun h => h0 (Or.inr h)
    by_cases h1 : config.Auth.Mode = lit "password"
    · by_cases hbad : (W.Unmarshal config.Auth.Config).2 ≠ none ∨
          mapIndex (W.Unmarshal config.Auth.Config).1 (lit "password") = []
      · have hctl : (server_auth W config).ctl = Ctl.exit 1 := by
          rw [server_auth_password_fatal W config h1 hbad]
        refine ⟨?_, ?_, hrun⟩
        · refine ⟨fun _ => Or.inl ⟨h1, ?_⟩, fun _ => hctl⟩
          rcases hbad with hbad | hbad
          · exact Or.inl hbad
          · exact Or.inr (Or.inr hbad)
        · rw [hctl]
          simp
      · have hctl : (server_auth W config).ctl = Ctl.next
            (authPassword (mapIndex (W.Unmarshal config.Auth.Config).1 (lit "password"))) := by
          rw [server_auth_password_built W config h1 hbad]
        refine ⟨?_, ?_, hrun⟩
        · rw [hctl]
          constructor
          · intro hx
            cases hx
          · rintro (⟨-, hp | hp | hp⟩ | ⟨-, -, hc⟩)
            · exact absurd (Or.inl hp) hbad
            · exact absurd (Or.inr (mapIndex_absent _ _ hp)) hbad
            · exact absurd (Or.inr hp) hbad
            · exact absurd h1 hc
        · rw [hctl]
          simp
    · have hctl : (server_auth W config).ctl = Ctl.exit 1 := by
        rw [server_auth_other W config ha hb h1]
      refine ⟨?_, ?_, hrun⟩
      · exact ⟨fun _ => Or.inr ⟨ha, hb, h1⟩, fun _ => hctl⟩
      · rw [hctl]
        simp

/-- C2, for the unsupported mode bogus in a world where the certificate loads. -/
theorem server_auth_fatal_iff_witness :
    (server_auth (exWorld none) (exConfig (lit "bogus") [])).ctl = Ctl.exit 1 ∧
    (server exConsts (exWorld none) (exConfig (lit "bogus") [])).ctl = Ctl.exit 1 :=
  have h := server_auth_fatal_iff exConsts (exWorld none) (exConfig (lit "bogus") []) rfl
  have hx : (server_auth (exWorld none) (exConfig (lit "bogus") [])).ctl = Ctl.exit 1 :=
    h.1.mpr (Or.inr (by decide))
  ⟨hx, (h.2.2 hx).1⟩

/-- C3: in password mode, when start-up constructs a strategy, that strategy answers
false and Wrong password to the empty credential, whatever the peer address and the
byte counts. -/
theorem server_auth_password_rejects_empty (W : World) (config : serverConfig)
    (authFunc : AuthFunc)
    (hmode : config.Auth.Mode = lit "password")
    (hbuilt : (server_auth W config).ctl = Ctl.next authFunc)
    (addr : Addr) (sSend sRecv : Nat) :
    authFunc addr [] sSend sRecv = (false, lit "Wrong password") := by
  by_cases hbad : (W.Unmarshal config.Auth.Config).2 ≠ none ∨
      mapIndex (W.Unmarshal config.Auth.Config).1 (lit "password") = []
  · rw [server_auth_password_fatal W config hmode hbad] at hbuilt
    cases hbuilt
  · rw [server_auth_password_built W config hmode hbad] at hbuilt
    cases hbuilt
    have hne : ¬ ([] = mapIndex (W.Unmarshal config.Auth.Config).1 (lit "password")) :=
      fun h => hbad (Or.inr h.symm)
    simp [authPassword, hne]

/-- C3, for the password hunter2. -/
theorem server_auth_password_rejects_empty_witness :
    authPassword (lit "hunter2") { Network := lit "udp", String := lit "10.0.0.1:4000" }
        [] 12 34 = (false, lit "Wrong password") :=
  server_auth_password_rejects_empty (exWorld none) (exConfig (lit "password") [])
    (authPassword (lit "hunter2")) rfl rfl
    { Network := lit "udp", String := lit "10.0.0.1:4000" } 12 34

/-- C4: when the mode is the empty string or none, start-up constructs the strategy
authNone, the same for both names, and authNone answers true and Welcome to every
peer address, credential and byte counts. -/
theorem server_auth_open (W : World) (config : serverConfig)
    (hmode : config.Auth.Mode = lit "" ∨ config.Auth.Mode = lit "none") :
    (server_auth W config).ctl = Ctl.next authNone ∧
    ∀ (addr : Addr) (auth : List UInt8) (sSend sRecv : Nat),
      authNone addr auth sSend sRecv = (true, lit "Welcome") := by
  refine ⟨?_, fun _ _ _ _ => rfl⟩
  rw [server_auth_none W config hmode]

/-- C4, for the two mode names. -/
theorem server_auth_open_witness :
    (server_auth (exWorld none) (exConfig (lit "") [])).ctl =
      (server_auth (exWorld none) (exConfig (lit "none") [])).ctl ∧
    authNone { Network := lit "udp", String := lit "10.0.0.1:4000" } [] 0 0 =
      (true, lit "Welcome") :=
  ⟨(server_auth_open (exWorld none) (exConfig (lit "") []) (Or.inl rfl)).1.trans
     (server_auth_open (exWorld none) (exConfig (lit "none") []) (Or.inr rfl)).1.symm,
   (server_auth_open (exWorld none) (exConfig (lit "") []) (Or.inl rfl)).2 _ _ _ _⟩

/-- C5, for the example constants and a configuration with every number at zero. -/
theorem server_quicConfig_resolved_witness :
    (server_quicConfig exConsts (exConfig (lit "none") [])).MaxReceiveStreamFlowControlWindow =
      33554432 ∧
    (server_quicConfig exConsts (exConfig (lit "none") [])).MaxReceiveConnectionFlowControlWindow =
      67108864 ∧
    (server_quicConfig exConsts (exConfig (lit "none") [])).MaxIncomingStreams = 200 :=
  have h := server_quicConfig_resolved exConsts (exConfig (lit "none") [])
    (by decide) (by decide)
  ⟨h.1, h.2.1, h.2.2.1⟩

/-! ## Properties of the start-up sequence -/

/-- C6: whenever a run of server() reaches the call of core.NewServer, the engine
among its arguments is absent exactly when the configured ACL path is empty; when
present it is the engine returned by the loader with the default action overwritten
by ActionDirect, whatever the loaded default action was. -/
theorem server_acl_engine_handed (K : Consts) (W : World) (config : serverConfig)
    (args : ServerArgs) (h : Event.NewServer args ∈ (server K W config).trace) :
    (args.aclEngine = none ↔ config.ACL = []) ∧
    (∀ engine, args.aclEngine = some engine →
      engine.DefaultAction = ActionDirect ∧
      ∃ loaded, (W.LoadFromFile config.ACL).1 = some loaded ∧
        engine = { loaded with DefaultAction := ActionDirect }) := by
  obtain ⟨-, authFunc, aclEngine, -, hacl, hargs⟩ := server_newServer_args K W config args h
  have heng : args.aclEngine = aclEngine := by
    rw [hargs]
    rfl
  rw [heng]
  rcases server_acl_next W config aclEngine hacl with ⟨hp, hn⟩ | ⟨hp, loaded, hl, hs⟩
  · subst hn
    refine ⟨⟨fun _ => hp, fun _ => rfl⟩, ?_⟩
    intro engine he
    cases he
  · subst hs
    refine ⟨⟨fun hx => (by cases hx), fun hx => absurd hx hp⟩, ?_⟩
    intro engine he
    cases he
    exact ⟨rfl, loaded, by rw [hl], rfl⟩

/-- C6, for the ACL path acl.txt and a loader whose engine has the default action
proxy: the engine handed over is present and its default action is ActionDirect. -/
theorem server_acl_engine_handed_witness :
    (exArgs.aclEngine = none ↔ (exConfig (lit "none") (lit "acl.txt")).ACL = []) ∧
    exArgs.aclEngine = some { DefaultAction := ActionDirect, Entries := [] } ∧
    ((exWorld none).LoadFromFile (lit "acl.txt")).1 =
      some { DefaultAction := ActionProxy, Entries := [] } :=
  ⟨(server_acl_engine_handed exConsts (exWorld none) (exConfig (lit "none") (lit "acl.txt"))
      exArgs
      (List.Mem.tail _ (List.Mem.tail _ (List.Mem.tail _ (List.Mem.tail _
        (List.Mem.head _)))))).1,
   rfl, rfl⟩

/-- C8: when the certificate and key do not load, server() ends at that step with
the fatal log entry and os.Exit(1); the ACL file is not loaded and core.NewServer is
not called, whatever the rest of the configuration. -/
theorem server_cert_failure_stops (K : Consts) (W : World) (config : serverConfig)
    (h : (W.LoadX509KeyPair config.CertFile config.KeyFile).2 ≠ none) :
    (server K W config).ctl = Ctl.exit 1 ∧
    (server K W config).trace.map Event.kind =
      [EventKind.log, EventKind.LoadX509KeyPair, EventKind.log, EventKind.Exit] ∧
    (server K W config).trace.getLast? = some (Event.Exit 1) ∧
    EventKind.LoadFromFile ∉ (server K W config).trace.map Event.kind ∧
    EventKind.NewServer ∉ (server K W config).trace.map Event.kind := by
  rw [server_run_cert_failure K W config h]
  simp [Event.kind]

/-- C8, for the example world whose certificate does not load. -/
theorem server_cert_failure_stops_witness :
    (server exConsts exWorldBadCert (exConfig (lit "password") (lit "acl.txt"))).ctl =
      Ctl.exit 1 ∧
    EventKind.NewServer ∉
      (server exConsts exWorldBadCert
        (exConfig (lit "password") (lit "acl.txt"))).trace.map Event.kind :=
  have h := server_cert_failure_stops exConsts exWorldBadCert
    (exConfig (lit "password") (lit "acl.txt")) (by decide)
  ⟨h.1, h.2.2.2.2⟩

/-- C7: in the example world, where core.NewServer succeeds, the run of server() for
the example configuration is: the two opening events, the warning of the open
strategy, the call of core.NewServer, an Info entry, the serve loop, the Fatal entry
and os.Exit(1).  The process ends by os.Exit and the deferred Close is not called,
whatever error the serve loop returned. -/
theorem server_close_skipped (serveErr : Option GoError) :
    (server exConsts (exWorld serveErr) (exConfig (lit "none") [])).trace.map Event.kind =
      [EventKind.log, EventKind.LoadX509KeyPair, EventKind.log, EventKind.NewServer,
       EventKind.log, EventKind.Serve, EventKind.log, EventKind.Exit] ∧
    (server exConsts (exWorld serveErr) (exConfig (lit "none") [])).ctl = Ctl.exit 1 ∧
    EventKind.Close ∉
      (server exConsts (exWorld serveErr) (exConfig (lit "none") [])).trace.map Event.kind := by
  have hk : (server exConsts (exWorld serveErr) (exConfig (lit "none") [])).trace.map
      Event.kind =
      [EventKind.log, EventKind.LoadX509KeyPair, EventKind.log, EventKind.NewServer,
       EventKind.log, EventKind.Serve, EventKind.log, EventKind.Exit] := rfl
  refine ⟨hk, rfl, ?_⟩
  rw [hk]
  decide

end Hysteria
